import Mathlib

/-!
Shallow embedding of the resilient-email-service repository
(src/services/EmailService.ts, src/services/CircuitBreaker.ts,
src/interfaces/IEmailProvider.ts) in Lean 4.

Modelling conventions:
* Machine time (`Date.now()`, `new Date()`) is an explicit `now : Nat`
  argument (milliseconds).  One `dispatch` call uses a single time sample;
  the sub-`resetTimeout` intra-call elapsed time is not modelled.
* `uuidv4()` is modelled by a fresh-id counter `nextId`: the only property
  the service relies on is that each generated id is new.
* A provider (`IEmailProvider`) is a name together with a behaviour oracle
  saying, for each underlying invocation, whether `send` resolves (with a
  `{success, providerName}` result) or rejects (throws).
* JS `Map`/`Set` become association lists / lists with `BEq` lookup.
* Promise-based code becomes explicit state passing; the list of backoff
  delays requested through `this.wait(ms)` is returned as an output trace.
* Each `CircuitBreaker` additionally carries `calls`, an instrumentation
  counter of how many times the *underlying* provider was invoked.
-/

/-- `EmailPayload` from src/interfaces/IEmailProvider.ts. -/
structure EmailPayload where
  «to» : String
  «from» : String
  subject : String
  body : String
deriving DecidableEq

/-- The resolved value of `IEmailProvider.send`: `{ success; providerName }`. -/
structure SendResult where
  success : Bool
  providerName : String
deriving DecidableEq

/-- Outcome of one underlying provider invocation: the returned promise
either resolves with a `SendResult` or rejects (throws). -/
inductive ProviderBehaviorResult where
  | resolves (result : SendResult)
  | throws
deriving DecidableEq

/-- An `IEmailProvider`: a name plus a behaviour oracle giving the outcome
of the k-th underlying invocation (0-based) for a given payload. -/
structure Provider where
  name : String
  behavior : EmailPayload → Nat → ProviderBehaviorResult

/-- A provider whose `send` always resolves `{success: true}` (like
MockProvider2 without the randomness). -/
def alwaysSucceeds (name : String) : Provider :=
  ⟨name, fun _ _ => .resolves ⟨true, name⟩⟩

/-- A provider whose `send` always rejects (throws). -/
def alwaysThrows (name : String) : Provider :=
  ⟨name, fun _ _ => .throws⟩

/-- A provider whose `send` always resolves `{success: false}`. -/
def alwaysUnsuccessful (name : String) : Provider :=
  ⟨name, fun _ _ => .resolves ⟨false, name⟩⟩

/-- `CircuitState` from src/services/CircuitBreaker.ts. -/
inductive CircuitState where
  | CLOSED
  | OPEN
  | HALF_OPEN
deriving DecidableEq

/-- The errors a wrapped `send` can throw: the two CircuitBreaker errors
(lines 38 and 45 of CircuitBreaker.ts) and a re-thrown provider error. -/
inductive SendError where
  | circuitOpen
  | probeInProgress
  | providerError
deriving DecidableEq

/-- The `CircuitBreaker` instance state (src/services/CircuitBreaker.ts):
wrapped provider, `state`, `failureCount`, `lastFailureTime`,
`halfOpenRequestPending`, plus the `calls` instrumentation counter. -/
structure CircuitBreaker where
  provider : Provider
  state : CircuitState := .CLOSED
  failureCount : Nat := 0
  lastFailureTime : Nat := 0
  halfOpenRequestPending : Bool := false
  calls : Nat := 0

/-- A freshly constructed breaker around a provider (constructor, line 20). -/
def freshCB (p : Provider) : CircuitBreaker := { provider := p }

namespace CircuitBreaker

/-- `failureThreshold = 3` (CircuitBreaker.ts line 12). -/
def failureThreshold : Nat := 3

/-- `resetTimeout = 30000` ms (CircuitBreaker.ts line 14). -/
def resetTimeout : Nat := 30000

/-- `getName()` delegates to the wrapped provider (lines 24-26). -/
def getName (cb : CircuitBreaker) : String := cb.provider.name

/-- `recordFailure()` (lines 65-75): bump the failure count, stamp the
failure time, clear the probe flag, and open the circuit when the count
reaches the threshold. -/
def recordFailure (cb : CircuitBreaker) (now : Nat) : CircuitBreaker :=
  let fc := cb.failureCount + 1
  { cb with
    failureCount := fc
    lastFailureTime := now
    halfOpenRequestPending := false
    state := if failureThreshold ≤ fc then .OPEN else cb.state }

/-- `reset()` (lines 77-84): back to CLOSED with zero failures and no
pending probe. -/
def reset (cb : CircuitBreaker) : CircuitBreaker :=
  { cb with failureCount := 0, state := .CLOSED, halfOpenRequestPending := false }

/-- The gate section of `send` (lines 30-49), i.e. everything before the
provider is invoked.  Returns the breaker state at the moment the wrapped
provider is invoked, or the error thrown instead. -/
def gate (cb : CircuitBreaker) (now : Nat) : Except SendError CircuitBreaker :=
  -- lines 30-40: OPEN handling
  match
    ((if cb.state = .OPEN then
        if resetTimeout < now - cb.lastFailureTime then
          .ok { cb with state := .HALF_OPEN, halfOpenRequestPending := false }
        else
          .error SendError.circuitOpen
      else .ok cb) : Except SendError CircuitBreaker) with
  | .error e => .error e
  | .ok cb1 =>
    -- lines 43-49: HALF_OPEN single-probe handling
    if cb1.state = .HALF_OPEN ∧ cb1.halfOpenRequestPending then
      .error SendError.probeInProgress
    else if cb1.state = .HALF_OPEN then
      .ok { cb1 with halfOpenRequestPending := true }
    else
      .ok cb1

/-- `send(payload)` (lines 28-63): run the gate; if admitted, invoke the
underlying provider (its k-th invocation, k = `calls`), reset on a
resolved promise, record a failure and re-throw on a rejected one. -/
def send (cb : CircuitBreaker) (payload : EmailPayload) (now : Nat) :
    CircuitBreaker × Except SendError SendResult :=
  match cb.gate now with
  | .error e => (cb, .error e)
  | .ok cb1 =>
    match cb1.provider.behavior payload cb1.calls with
    | .resolves r => ({ cb1.reset with calls := cb1.calls + 1 }, .ok r)
    | .throws => ({ cb1.recordFailure now with calls := cb1.calls + 1 }, .error .providerError)

end CircuitBreaker

/-- `EmailStatus` from src/services/EmailService.ts line 7. -/
inductive EmailStatus where
  | pending
  | sent
  | failed
deriving DecidableEq

/-- `TrackedEmail` (EmailService.ts lines 9-16); `lastAttempt` is a
millisecond timestamp, `id` the generated identity. -/
structure TrackedEmail where
  id : Nat
  status : EmailStatus
  attempts : Nat
  provider : Option String
  lastAttempt : Nat
  idempotencyKey : String
deriving DecidableEq

/-- The single error `sendEmail` can throw (EmailService.ts line 67). -/
inductive SendEmailError where
  | rateLimitExceeded
deriving DecidableEq

/-- JS `Map.set` on an association list: replace the binding in place if
the key is present, append it otherwise. -/
def mapSet (m : List (String × TrackedEmail)) (k : String) (v : TrackedEmail) :
    List (String × TrackedEmail) :=
  match m with
  | [] => [(k, v)]
  | (k', v') :: rest => if k' == k then (k, v) :: rest else (k', v') :: mapSet rest k v

/-- The `EmailService` instance state (EmailService.ts lines 18-27). -/
structure EmailService where
  providers : List CircuitBreaker
  sentEmailIds : List String := []
  emailStatus : List (String × TrackedEmail) := []
  requestTimestamps : List Nat := []
  nextId : Nat := 0

namespace EmailService

/-- `RATE_LIMIT_COUNT = 5` (line 25). -/
def RATE_LIMIT_COUNT : Nat := 5

/-- `RATE_LIMIT_WINDOW_MS = 10000` (line 26). -/
def RATE_LIMIT_WINDOW_MS : Nat := 10000

/-- `MAX_RETRIES = 2` (line 27): 1 initial try + 2 retries = 3 tries. -/
def MAX_RETRIES : Nat := 2

/-- The constructor (lines 29-35): wrap each provider in a CircuitBreaker.
(The empty-list guard throws in the constructor; claims only concern
constructed services, so `make` is total here.) -/
def make (ps : List Provider) : EmailService :=
  { providers := ps.map freshCB }

/-- `isRateLimited()` (lines 42-54): prune timestamps older than the
window (this mutation is kept even when not limited), then report whether
the retained count has reached the limit. -/
def isRateLimited (s : EmailService) (now : Nat) : Bool × EmailService :=
  let kept := s.requestTimestamps.filter (fun t => decide (now - t < RATE_LIMIT_WINDOW_MS))
  (decide (RATE_LIMIT_COUNT ≤ kept.length), { s with requestTimestamps := kept })

/-- The inner retry loop of `sendEmail` (lines 83-107) for one wrapped
provider: `i` is the 0-based try index, `fuel = MAX_RETRIES + 1 - i` the
remaining tries.  Returns the updated breaker, the updated record, the
requested backoff delays in order, and the successful result if any.
Per source: attempts and lastAttempt are bumped before every try; a
resolved `{success: false}` falls through with no backoff; a thrown error
triggers `2^i * 200` ms of backoff unless this was the last try. -/
def tryLoop (payload : EmailPayload) (cb : CircuitBreaker) (email : TrackedEmail)
    (now : Nat) : Nat → Nat → CircuitBreaker × TrackedEmail × List Nat × Option SendResult
  | _, 0 => (cb, email, [], none)
  | i, fuel + 1 =>
    let email1 := { email with attempts := email.attempts + 1, lastAttempt := now }
    match cb.send payload now with
    | (cb1, .ok r) =>
      if r.success then (cb1, email1, [], some r)
      else tryLoop payload cb1 email1 now (i + 1) fuel
    | (cb1, .error _) =>
      if i < MAX_RETRIES then
        let delay := 2 ^ i * 200
        let (cb2, email2, waits, res) := tryLoop payload cb1 email1 now (i + 1) fuel
        (cb2, email2, delay :: waits, res)
      else
        (cb1, email1, [], none)

/-- The outer fallback loop of `sendEmail` (line 82): providers in order,
each getting `MAX_RETRIES + 1` tries; stop at the first success. -/
def providersLoop (payload : EmailPayload) (ps : List CircuitBreaker)
    (email : TrackedEmail) (now : Nat) :
    List CircuitBreaker × TrackedEmail × List Nat × Option SendResult :=
  match ps with
  | [] => ([], email, [], none)
  | cb :: rest =>
    match tryLoop payload cb email now 0 (MAX_RETRIES + 1) with
    | (cb1, email1, waits, some r) => (cb1 :: rest, email1, waits, some r)
    | (cb1, email1, waits, none) =>
      let (rest1, email2, waits2, res) := providersLoop payload rest email1 now
      (cb1 :: rest1, email2, waits ++ waits2, res)

/-- Placeholder returned by the modelled non-null assertion
`this.emailStatus.get(key)!` (line 60); unreachable in reachable states. -/
def bangDefault (key : String) : TrackedEmail := ⟨0, .pending, 0, none, 0, key⟩

/-- Outcome of the synchronous head of `sendEmail` (lines 56-79): either
the idempotent short-circuit, the rate-limit throw, or "proceed to the
provider loop with this fresh pending record". -/
inductive Phase1Result where
  | shortCircuit (record : TrackedEmail)
  | rateLimited
  | proceed (tracked : TrackedEmail)
deriving DecidableEq

/-- The synchronous head of `sendEmail` (lines 56-79): idempotency check
(lines 58-61), rate-limiting check (lines 63-69), and creation of the
fresh `pending` record (lines 71-79).  In the JS runtime this whole
segment executes without any `await`, so it is atomic with respect to
other dispatches; the first suspension point is the provider `send`
inside the loop. -/
def sendEmailPhase1 (s : EmailService) (idempotencyKey : String) (now : Nat) :
    EmailService × Phase1Result :=
  if s.sentEmailIds.contains idempotencyKey then
    (s, .shortCircuit ((s.emailStatus.lookup idempotencyKey).getD (bangDefault idempotencyKey)))
  else
    let pr := s.isRateLimited now
    if pr.1 then (pr.2, .rateLimited)
    else
      let s1 := pr.2
      let s2 := { s1 with requestTimestamps := s1.requestTimestamps ++ [now] }
      let tracked : TrackedEmail := ⟨s2.nextId, .pending, 0, none, now, idempotencyKey⟩
      ({ s2 with
          nextId := s2.nextId + 1
          emailStatus := mapSet s2.emailStatus idempotencyKey tracked },
       .proceed tracked)

/-- The rest of `sendEmail` (lines 81-116), resumed against the current
shared service state: the provider loop started from this dispatch's own
`tracked` record, then the terminal bookkeeping. -/
def sendEmailResume (s : EmailService) (payload : EmailPayload) (idempotencyKey : String)
    (tracked : TrackedEmail) (now : Nat) : EmailService × List Nat × TrackedEmail :=
  match providersLoop payload s.providers tracked now with
  | (ps, email, waits, some r) =>
    let email1 := { email with status := .sent, provider := some r.providerName }
    ({ s with
        providers := ps
        sentEmailIds := s.sentEmailIds ++ [idempotencyKey]
        emailStatus := mapSet s.emailStatus idempotencyKey email1 },
     waits, email1)
  | (ps, email, waits, none) =>
    let email1 := { email with status := .failed }
    ({ s with
        providers := ps
        emailStatus := mapSet s.emailStatus idempotencyKey email1 },
     waits, email1)

/-- `sendEmail(payload, idempotencyKey)` (lines 56-116): the synchronous
head followed by the retry/fallback loop and terminal bookkeeping.
Returns the new service state, the requested backoff delays, and either
the thrown rate-limit error or the returned `TrackedEmail`. -/
def sendEmail (s : EmailService) (payload : EmailPayload) (idempotencyKey : String)
    (now : Nat) : EmailService × List Nat × Except SendEmailError TrackedEmail :=
  match s.sendEmailPhase1 idempotencyKey now with
  | (s1, .shortCircuit r) => (s1, [], .ok r)
  | (s1, .rateLimited) => (s1, [], .error .rateLimitExceeded)
  | (s1, .proceed tracked) =>
    match s1.sendEmailResume payload idempotencyKey tracked now with
    | (s2, waits, r) => (s2, waits, .ok r)

/-- `getEmailStatus(idempotencyKey)` (lines 119-121). -/
def getEmailStatus (s : EmailService) (idempotencyKey : String) : Option TrackedEmail :=
  s.emailStatus.lookup idempotencyKey

/-- Run a sequence of `sendEmail` calls, each given as
(payload, key, time); `getEmailStatus` does not change the state. -/
def run (s : EmailService) : List (EmailPayload × String × Nat) → EmailService
  | [] => s
  | (p, k, t) :: rest => run (s.sendEmail p k t).1 rest

/-- The idempotency-registry / status-map consistency invariant of the
service: a key is in `sentEmailIds` exactly when its tracked record
exists and is `sent`. -/
def Inv (s : EmailService) : Prop :=
  ∀ k, k ∈ s.sentEmailIds ↔ ∃ r, s.emailStatus.lookup k = some r ∧ r.status = .sent

end EmailService

/-- A concrete payload for witnesses and counterexamples. -/
def pay0 : EmailPayload := ⟨"to@x", "from@x", "subj", "body"⟩

/-- The breaker left behind after one `sendEmail` exhausts a fresh
always-throwing provider at time `now`: opened, 3 failures, 3 underlying
invocations. -/
def thrownOutCB (n : String) (now : Nat) : CircuitBreaker :=
  { provider := alwaysThrows n, state := .OPEN, failureCount := 3,
    lastFailureTime := now, halfOpenRequestPending := false, calls := 3 }

/-- The backoff-delay trace of `n` consecutive exhausted providers:
`2^0*200, 2^1*200` per provider (no delay after a provider's last try,
none between providers). -/
def repWaits : Nat → List Nat
  | 0 => []
  | n + 1 => 2 ^ 0 * 200 :: 2 ^ 1 * 200 :: repWaits n

/-! ## Helper lemmas: CircuitBreaker -/

theorem CircuitBreaker.gate_closed (cb : CircuitBreaker) (now : Nat)
    (h : cb.state = .CLOSED) : cb.gate now = .ok cb := by
  simp [CircuitBreaker.gate, h]

theorem CircuitBreaker.gate_open_rejects (cb : CircuitBreaker) (now : Nat)
    (h : cb.state = .OPEN) (ht : now - cb.lastFailureTime ≤ CircuitBreaker.resetTimeout) :
    cb.gate now = .error .circuitOpen := by
  simp [CircuitBreaker.gate, h, Nat.not_lt.mpr ht]

theorem CircuitBreaker.gate_open_probe (cb : CircuitBreaker) (now : Nat)
    (h : cb.state = .OPEN) (ht : CircuitBreaker.resetTimeout < now - cb.lastFailureTime) :
    cb.gate now = .ok { cb with state := .HALF_OPEN, halfOpenRequestPending := true } := by
  simp [CircuitBreaker.gate, h, ht]

theorem CircuitBreaker.gate_halfopen_pending (cb : CircuitBreaker) (now : Nat)
    (h : cb.state = .HALF_OPEN) (hp : cb.halfOpenRequestPending = true) :
    cb.gate now = .error .probeInProgress := by
  simp [CircuitBreaker.gate, h, hp]

theorem CircuitBreaker.send_gate_error (cb : CircuitBreaker) (p : EmailPayload) (now : Nat)
    (e : SendError) (h : cb.gate now = .error e) :
    cb.send p now = (cb, .error e) := by
  simp [CircuitBreaker.send, h]

theorem CircuitBreaker.send_resolves (cb cb1 : CircuitBreaker) (p : EmailPayload) (now : Nat)
    (r : SendResult) (h : cb.gate now = .ok cb1)
    (hb : cb1.provider.behavior p cb1.calls = .resolves r) :
    cb.send p now = ({ cb1.reset with calls := cb1.calls + 1 }, .ok r) := by
  simp [CircuitBreaker.send, h, hb]

theorem CircuitBreaker.send_throws (cb cb1 : CircuitBreaker) (p : EmailPayload) (now : Nat)
    (h : cb.gate now = .ok cb1)
    (hb : cb1.provider.behavior p cb1.calls = .throws) :
    cb.send p now = ({ cb1.recordFailure now with calls := cb1.calls + 1 }, .error .providerError) := by
  simp [CircuitBreaker.send, h, hb]

/-! ## Helper lemmas: the retry loop -/

theorem EmailService.tryLoop_throws_fresh (p : EmailPayload) (n : String)
    (e : TrackedEmail) (now : Nat) :
    EmailService.tryLoop p (freshCB (alwaysThrows n)) e now 0 (EmailService.MAX_RETRIES + 1) =
      (thrownOutCB n now,
       { e with attempts := e.attempts + 3, lastAttempt := now },
       [2 ^ 0 * 200, 2 ^ 1 * 200], none) := rfl

theorem EmailService.tryLoop_open (p : EmailPayload) (cb : CircuitBreaker)
    (e : TrackedEmail) (now : Nat) (h : cb.state = .OPEN)
    (ht : now - cb.lastFailureTime ≤ CircuitBreaker.resetTimeout) :
    EmailService.tryLoop p cb e now 0 (EmailService.MAX_RETRIES + 1) =
      (cb, { e with attempts := e.attempts + 3, lastAttempt := now },
       [2 ^ 0 * 200, 2 ^ 1 * 200], none) := by
  have hs : cb.send p now = (cb, .error .circuitOpen) :=
    CircuitBreaker.send_gate_error _ _ _ _ (CircuitBreaker.gate_open_rejects _ _ h ht)
  show EmailService.tryLoop p cb e now 0 (2 + 1) = _
  simp [EmailService.tryLoop, hs, EmailService.MAX_RETRIES]

theorem EmailService.tryLoop_probePending (p : EmailPayload) (cb : CircuitBreaker)
    (e : TrackedEmail) (now : Nat) (h : cb.state = .HALF_OPEN)
    (hp : cb.halfOpenRequestPending = true) :
    EmailService.tryLoop p cb e now 0 (EmailService.MAX_RETRIES + 1) =
      (cb, { e with attempts := e.attempts + 3, lastAttempt := now },
       [2 ^ 0 * 200, 2 ^ 1 * 200], none) := by
  have hs : cb.send p now = (cb, .error .probeInProgress) :=
    CircuitBreaker.send_gate_error _ _ _ _ (CircuitBreaker.gate_halfopen_pending _ _ h hp)
  show EmailService.tryLoop p cb e now 0 (2 + 1) = _
  simp [EmailService.tryLoop, hs, EmailService.MAX_RETRIES]

theorem EmailService.tryLoop_noSuccess_fresh (p : EmailPayload) (n : String)
    (e : TrackedEmail) (now : Nat) :
    EmailService.tryLoop p (freshCB (alwaysUnsuccessful n)) e now 0 (EmailService.MAX_RETRIES + 1) =
      ({ freshCB (alwaysUnsuccessful n) with calls := 3 },
       { e with attempts := e.attempts + 3, lastAttempt := now },
       [], none) := rfl

theorem EmailService.tryLoop_succeeds_fresh (p : EmailPayload) (n : String)
    (e : TrackedEmail) (now : Nat) :
    EmailService.tryLoop p (freshCB (alwaysSucceeds n)) e now 0 (EmailService.MAX_RETRIES + 1) =
      ({ freshCB (alwaysSucceeds n) with calls := 1 },
       { e with attempts := e.attempts + 1, lastAttempt := now },
       [], some ⟨true, n⟩) := rfl

/-! ## Helper lemmas: the provider fallback loop -/

theorem EmailService.providersLoop_allThrows (p : EmailPayload) (names : List String)
    (e : TrackedEmail) (now : Nat) (h : e.lastAttempt = now) :
    EmailService.providersLoop p (names.map (fun n => freshCB (alwaysThrows n))) e now =
      (names.map (fun n => thrownOutCB n now),
       { e with attempts := e.attempts + 3 * names.length, lastAttempt := now },
       repWaits names.length, none) := by
  induction names generalizing e with
  | nil =>
    subst h
    simp [EmailService.providersLoop, repWaits]
  | cons n rest ih =>
    simp only [List.map_cons, EmailService.providersLoop, EmailService.tryLoop_throws_fresh]
    rw [ih { e with attempts := e.attempts + 3, lastAttempt := now } rfl]
    simp only [List.length_cons, repWaits, List.cons_append, List.nil_append,
      Prod.mk.injEq, TrackedEmail.mk.injEq, and_true, true_and, eq_self_iff_true]
    omega

/-! ## Helper lemmas: the status map and the idempotency set -/

theorem lookup_mapSet_self (m : List (String × TrackedEmail)) (k : String) (v : TrackedEmail) :
    (mapSet m k v).lookup k = some v := by
  induction m with
  | nil => simp [mapSet, List.lookup]
  | cons kv rest ih =>
    obtain ⟨k', v'⟩ := kv
    by_cases h : k' = k
    · subst h; simp [mapSet, List.lookup]
    · have hb : (k == k') = false := beq_eq_false_iff_ne.mpr (Ne.symm h)
      have hb2 : (k' == k) = false := beq_eq_false_iff_ne.mpr h
      simp [mapSet, List.lookup, hb, hb2, ih]

theorem lookup_mapSet_ne (m : List (String × TrackedEmail)) (k k2 : String)
    (v : TrackedEmail) (h : k2 ≠ k) :
    (mapSet m k v).lookup k2 = m.lookup k2 := by
  induction m with
  | nil =>
    have hb : (k2 == k) = false := beq_eq_false_iff_ne.mpr h
    simp [mapSet, List.lookup, hb]
  | cons kv rest ih =>
    obtain ⟨k', v'⟩ := kv
    by_cases hk : k' = k
    · subst hk
      have hb : (k2 == k') = false := beq_eq_false_iff_ne.mpr h
      simp [mapSet, List.lookup, hb]
    · have hb : (k' == k) = false := beq_eq_false_iff_ne.mpr hk
      by_cases h2 : k2 = k'
      · subst h2; simp [mapSet, List.lookup, hb]
      · have hb2 : (k2 == k') = false := beq_eq_false_iff_ne.mpr h2
        simp [mapSet, List.lookup, hb, hb2, ih]

/-! ## Helper lemmas: shapes of `sendEmail` -/

theorem EmailService.sendEmailPhase1_shortCircuit (s : EmailService) (k : String)
    (now : Nat) (h : s.sentEmailIds.contains k = true) :
    s.sendEmailPhase1 k now =
      (s, .shortCircuit ((s.emailStatus.lookup k).getD (EmailService.bangDefault k))) := by
  have hm : k ∈ s.sentEmailIds := by simpa using h
  simp [EmailService.sendEmailPhase1, hm]

theorem EmailService.sendEmailPhase1_rateLimited (s : EmailService) (k : String)
    (now : Nat) (h : s.sentEmailIds.contains k = false)
    (h5 : EmailService.RATE_LIMIT_COUNT ≤
      (s.requestTimestamps.filter fun t =>
        decide (now - t < EmailService.RATE_LIMIT_WINDOW_MS)).length) :
    s.sendEmailPhase1 k now =
      ({ s with requestTimestamps := s.requestTimestamps.filter fun t =>
          decide (now - t < EmailService.RATE_LIMIT_WINDOW_MS) },
       .rateLimited) := by
  have hm : ¬ k ∈ s.sentEmailIds := by simpa using h
  simp [EmailService.sendEmailPhase1, EmailService.isRateLimited, hm, h5]

theorem EmailService.sendEmailPhase1_proceed (s : EmailService) (k : String) (now : Nat)
    (h : s.sentEmailIds.contains k = false)
    (hlt : (s.requestTimestamps.filter fun t =>
        decide (now - t < EmailService.RATE_LIMIT_WINDOW_MS)).length <
      EmailService.RATE_LIMIT_COUNT) :
    s.sendEmailPhase1 k now =
      ({ s with
          requestTimestamps := (s.requestTimestamps.filter fun t =>
            decide (now - t < EmailService.RATE_LIMIT_WINDOW_MS)) ++ [now]
          nextId := s.nextId + 1
          emailStatus := mapSet s.emailStatus k ⟨s.nextId, .pending, 0, none, now, k⟩ },
       .proceed ⟨s.nextId, .pending, 0, none, now, k⟩) := by
  have hm : ¬ k ∈ s.sentEmailIds := by simpa using h
  simp [EmailService.sendEmailPhase1, EmailService.isRateLimited, hm, Nat.not_le.mpr hlt]

theorem EmailService.sendEmail_shortCircuit (s : EmailService) (p : EmailPayload)
    (k : String) (now : Nat) (h : s.sentEmailIds.contains k = true) :
    s.sendEmail p k now =
      (s, [], .ok ((s.emailStatus.lookup k).getD (EmailService.bangDefault k))) := by
  simp [EmailService.sendEmail, EmailService.sendEmailPhase1_shortCircuit s k now h]

theorem EmailService.sendEmail_rateLimited (s : EmailService) (p : EmailPayload)
    (k : String) (now : Nat) (h : s.sentEmailIds.contains k = false)
    (h5 : EmailService.RATE_LIMIT_COUNT ≤
      (s.requestTimestamps.filter fun t =>
        decide (now - t < EmailService.RATE_LIMIT_WINDOW_MS)).length) :
    s.sendEmail p k now =
      ({ s with requestTimestamps := s.requestTimestamps.filter fun t =>
          decide (now - t < EmailService.RATE_LIMIT_WINDOW_MS) },
       [], .error .rateLimitExceeded) := by
  simp [EmailService.sendEmail, EmailService.sendEmailPhase1_rateLimited s k now h h5]

theorem EmailService.sendEmail_proceed (s : EmailService) (p : EmailPayload)
    (k : String) (now : Nat) (h : s.sentEmailIds.contains k = false)
    (hlt : (s.requestTimestamps.filter fun t =>
        decide (now - t < EmailService.RATE_LIMIT_WINDOW_MS)).length <
      EmailService.RATE_LIMIT_COUNT) :
    s.sendEmail p k now =
      (match ({ s with
          requestTimestamps := (s.requestTimestamps.filter fun t =>
            decide (now - t < EmailService.RATE_LIMIT_WINDOW_MS)) ++ [now]
          nextId := s.nextId + 1
          emailStatus := mapSet s.emailStatus k ⟨s.nextId, .pending, 0, none, now, k⟩ } :
            EmailService).sendEmailResume p k ⟨s.nextId, .pending, 0, none, now, k⟩ now with
       | (s2, waits, r) => (s2, waits, .ok r)) := by
  simp only [EmailService.sendEmail, EmailService.sendEmailPhase1_proceed s k now h hlt]

theorem EmailService.sendEmailResume_success (s : EmailService) (p : EmailPayload)
    (k : String) (t : TrackedEmail) (now : Nat) (ps : List CircuitBreaker)
    (email : TrackedEmail) (waits : List Nat) (r : SendResult)
    (h : EmailService.providersLoop p s.providers t now = (ps, email, waits, some r)) :
    s.sendEmailResume p k t now =
      ({ s with
          providers := ps
          sentEmailIds := s.sentEmailIds ++ [k]
          emailStatus := mapSet s.emailStatus k
            { email with status := .sent, provider := some r.providerName } },
       waits, { email with status := .sent, provider := some r.providerName }) := by
  simp [EmailService.sendEmailResume, h]

theorem EmailService.sendEmailResume_failure (s : EmailService) (p : EmailPayload)
    (k : String) (t : TrackedEmail) (now : Nat) (ps : List CircuitBreaker)
    (email : TrackedEmail) (waits : List Nat)
    (h : EmailService.providersLoop p s.providers t now = (ps, email, waits, none)) :
    s.sendEmailResume p k t now =
      ({ s with
          providers := ps
          emailStatus := mapSet s.emailStatus k { email with status := .failed } },
       waits, { email with status := .failed }) := by
  simp [EmailService.sendEmailResume, h]

/-! ## The idempotency invariant -/

theorem EmailService.Inv_make (ps : List Provider) : (EmailService.make ps).Inv := by
  intro k
  simp [EmailService.make, List.lookup]

theorem EmailService.sendEmail_success (s : EmailService) (p : EmailPayload)
    (k : String) (now : Nat) (ps1 : List CircuitBreaker) (email : TrackedEmail)
    (waits : List Nat) (r : SendResult)
    (h : s.sentEmailIds.contains k = false)
    (hlt : (s.requestTimestamps.filter fun t =>
        decide (now - t < EmailService.RATE_LIMIT_WINDOW_MS)).length <
      EmailService.RATE_LIMIT_COUNT)
    (hres : EmailService.providersLoop p s.providers ⟨s.nextId, .pending, 0, none, now, k⟩ now =
      (ps1, email, waits, some r)) :
    s.sendEmail p k now =
      ({ s with
          providers := ps1
          sentEmailIds := s.sentEmailIds ++ [k]
          emailStatus := mapSet (mapSet s.emailStatus k ⟨s.nextId, .pending, 0, none, now, k⟩) k
            { email with status := .sent, provider := some r.providerName }
          requestTimestamps := (s.requestTimestamps.filter fun t =>
            decide (now - t < EmailService.RATE_LIMIT_WINDOW_MS)) ++ [now]
          nextId := s.nextId + 1 },
       waits, .ok { email with status := .sent, provider := some r.providerName }) := by
  rw [EmailService.sendEmail_proceed s p k now h hlt]
  rw [EmailService.sendEmailResume_success
    ({ s with
        requestTimestamps := (s.requestTimestamps.filter fun t =>
          decide (now - t < EmailService.RATE_LIMIT_WINDOW_MS)) ++ [now]
        nextId := s.nextId + 1
        emailStatus := mapSet s.emailStatus k ⟨s.nextId, .pending, 0, none, now, k⟩ } :
      EmailService)
    p k ⟨s.nextId, .pending, 0, none, now, k⟩ now ps1 email waits r hres]

theorem EmailService.sendEmail_failure (s : EmailService) (p : EmailPayload)
    (k : String) (now : Nat) (ps1 : List CircuitBreaker) (email : TrackedEmail)
    (waits : List Nat)
    (h : s.sentEmailIds.contains k = false)
    (hlt : (s.requestTimestamps.filter fun t =>
        decide (now - t < EmailService.RATE_LIMIT_WINDOW_MS)).length <
      EmailService.RATE_LIMIT_COUNT)
    (hres : EmailService.providersLoop p s.providers ⟨s.nextId, .pending, 0, none, now, k⟩ now =
      (ps1, email, waits, none)) :
    s.sendEmail p k now =
      ({ s with
          providers := ps1
          emailStatus := mapSet (mapSet s.emailStatus k ⟨s.nextId, .pending, 0, none, now, k⟩) k
            { email with status := .failed }
          requestTimestamps := (s.requestTimestamps.filter fun t =>
            decide (now - t < EmailService.RATE_LIMIT_WINDOW_MS)) ++ [now]
          nextId := s.nextId + 1 },
       waits, .ok { email with status := .failed }) := by
  rw [EmailService.sendEmail_proceed s p k now h hlt]
  rw [EmailService.sendEmailResume_failure
    ({ s with
        requestTimestamps := (s.requestTimestamps.filter fun t =>
          decide (now - t < EmailService.RATE_LIMIT_WINDOW_MS)) ++ [now]
        nextId := s.nextId + 1
        emailStatus := mapSet s.emailStatus k ⟨s.nextId, .pending, 0, none, now, k⟩ } :
      EmailService)
    p k ⟨s.nextId, .pending, 0, none, now, k⟩ now ps1 email waits hres]

theorem EmailService.Inv_sendEmail (s : EmailService) (p : EmailPayload) (k : String)
    (now : Nat) (hI : s.Inv) : ((s.sendEmail p k now).1).Inv := by
  by_cases hc : s.sentEmailIds.contains k
  · rw [EmailService.sendEmail_shortCircuit s p k now hc]
    exact hI
  · have hc' : s.sentEmailIds.contains k = false := by simpa using hc
    have hknotmem : ¬ k ∈ s.sentEmailIds := by simpa using hc'
    by_cases h5 : EmailService.RATE_LIMIT_COUNT ≤
        (s.requestTimestamps.filter fun t =>
          decide (now - t < EmailService.RATE_LIMIT_WINDOW_MS)).length
    · rw [EmailService.sendEmail_rateLimited s p k now hc' h5]
      exact hI
    · have hlt := Nat.not_le.mp h5
      rcases hres : EmailService.providersLoop p s.providers
          ⟨s.nextId, .pending, 0, none, now, k⟩ now with ⟨ps1, email, waits, res⟩
      cases res with
      | some r =>
        rw [EmailService.sendEmail_success s p k now ps1 email waits r hc' hlt hres]
        intro k2
        by_cases hk : k2 = k
        · subst hk
          constructor
          · intro _
            exact ⟨_, lookup_mapSet_self _ _ _, rfl⟩
          · intro _
            simp
        · constructor
          · intro hmem
            have hmem' : k2 ∈ s.sentEmailIds := by
              rcases List.mem_append.mp hmem with h1 | h1
              · exact h1
              · simp at h1
                exact absurd h1 hk
            rcases (hI k2).mp hmem' with ⟨r2, hr2, hs2⟩
            refine ⟨r2, ?_, hs2⟩
            rw [lookup_mapSet_ne _ _ _ _ hk, lookup_mapSet_ne _ _ _ _ hk]
            exact hr2
          · intro hex
            rcases hex with ⟨r2, hr2, hs2⟩
            rw [lookup_mapSet_ne _ _ _ _ hk, lookup_mapSet_ne _ _ _ _ hk] at hr2
            exact List.mem_append.mpr (.inl ((hI k2).mpr ⟨r2, hr2, hs2⟩))
      | none =>
        rw [EmailService.sendEmail_failure s p k now ps1 email waits hc' hlt hres]
        intro k2
        by_cases hk : k2 = k
        · subst hk
          constructor
          · intro hmem
            exact absurd hmem hknotmem
          · intro hex
            rcases hex with ⟨r2, hr2, hs2⟩
            rw [lookup_mapSet_self] at hr2
            cases hr2
            simp at hs2
        · constructor
          · intro hmem
            rcases (hI k2).mp hmem with ⟨r2, hr2, hs2⟩
            refine ⟨r2, ?_, hs2⟩
            rw [lookup_mapSet_ne _ _ _ _ hk, lookup_mapSet_ne _ _ _ _ hk]
            exact hr2
          · intro hex
            rcases hex with ⟨r2, hr2, hs2⟩
            rw [lookup_mapSet_ne _ _ _ _ hk, lookup_mapSet_ne _ _ _ _ hk] at hr2
            exact (hI k2).mpr ⟨r2, hr2, hs2⟩

theorem EmailService.Inv_run (s : EmailService)
    (l : List (EmailPayload × String × Nat)) (hI : s.Inv) :
    (EmailService.run s l).Inv := by
  induction l generalizing s with
  | nil => exact hI
  | cons step rest ih =>
    obtain ⟨p, k, t⟩ := step
    exact ih _ (EmailService.Inv_sendEmail s p k t hI)

/-- One `sendEmail` call never changes the tracked record of a *different*
key. -/
theorem EmailService.lookup_sendEmail_other (s : EmailService) (p : EmailPayload)
    (k2 : String) (now : Nat) (k : String) (hne : k ≠ k2) :
    ((s.sendEmail p k2 now).1).getEmailStatus k = s.getEmailStatus k := by
  by_cases hc : s.sentEmailIds.contains k2
  · rw [EmailService.sendEmail_shortCircuit s p k2 now hc]
  · have hc' : s.sentEmailIds.contains k2 = false := by simpa using hc
    by_cases h5 : EmailService.RATE_LIMIT_COUNT ≤
        (s.requestTimestamps.filter fun t =>
          decide (now - t < EmailService.RATE_LIMIT_WINDOW_MS)).length
    · rw [EmailService.sendEmail_rateLimited s p k2 now hc' h5]
      rfl
    · have hlt := Nat.not_le.mp h5
      rcases hres : EmailService.providersLoop p s.providers
          ⟨s.nextId, .pending, 0, none, now, k2⟩ now with ⟨ps1, email, waits, res⟩
      cases res with
      | some r =>
        rw [EmailService.sendEmail_success s p k2 now ps1 email waits r hc' hlt hres]
        show (mapSet (mapSet s.emailStatus k2 _) k2 _).lookup k = _
        rw [lookup_mapSet_ne _ _ _ _ hne, lookup_mapSet_ne _ _ _ _ hne]
        rfl
      | none =>
        rw [EmailService.sendEmail_failure s p k2 now ps1 email waits hc' hlt hres]
        show (mapSet (mapSet s.emailStatus k2 _) k2 _).lookup k = _
        rw [lookup_mapSet_ne _ _ _ _ hne, lookup_mapSet_ne _ _ _ _ hne]
        rfl

/-- A `sent` record is stable across any further sequence of calls. -/
theorem EmailService.sent_stable (s : EmailService) (hI : s.Inv) (k : String)
    (r : TrackedEmail) (hr : s.getEmailStatus k = some r) (hsent : r.status = .sent)
    (l : List (EmailPayload × String × Nat)) :
    (EmailService.run s l).getEmailStatus k = some r := by
  induction l generalizing s with
  | nil => exact hr
  | cons step rest ih =>
    obtain ⟨p, k2, t⟩ := step
    have hI1 := EmailService.Inv_sendEmail s p k2 t hI
    by_cases hk : k = k2
    · subst hk
      have hmem : k ∈ s.sentEmailIds := (hI k).mpr ⟨r, hr, hsent⟩
      have hc : s.sentEmailIds.contains k = true := by simpa using hmem
      show (EmailService.run ((s.sendEmail p k t).1) rest).getEmailStatus k = some r
      rw [EmailService.sendEmail_shortCircuit s p k t hc]
      exact ih s hI hr
    · show (EmailService.run ((s.sendEmail p k2 t).1) rest).getEmailStatus k = some r
      refine ih _ hI1 ?_
      rw [EmailService.lookup_sendEmail_other s p k2 t k hk]
      exact hr

/-! ## Claim C1 -/

/-- C1 counterexample: the claim is false for `failed` terminal records.
Against a single always-throwing provider, the first `sendEmail` for key
"k" ends with a terminal `failed` record (id 0).  A repeated `sendEmail`
with the same key does not return that existing record: it creates a
fresh record (id 1) and consumes another rate-limiter slot (the window
now holds two timestamps), because only *successful* keys enter
`sentEmailIds` and the idempotency check consults only that set. -/
theorem C1_terminal_failed_counterexample :
    ((EmailService.make [alwaysThrows "P"]).sendEmail pay0 "k" 0).2.2 =
      .ok ⟨0, .failed, 3, none, 0, "k"⟩ ∧
    (((EmailService.make [alwaysThrows "P"]).sendEmail pay0 "k" 0).1.sendEmail
        pay0 "k" 0).2.2 =
      .ok ⟨1, .failed, 3, none, 0, "k"⟩ ∧
    (((EmailService.make [alwaysThrows "P"]).sendEmail pay0 "k" 0).1.sendEmail
        pay0 "k" 0).1.requestTimestamps = [0, 0] :=
  ⟨rfl, rfl, rfl⟩

/-- C1 (amended): for every reachable service state and every key whose
DispatchRecord is terminal with status `sent` (not `failed`), a repeated
`sendEmail(payload, key)` returns the existing record with all fields
unchanged, and the whole service state — providers (hence underlying
provider invocation counts), rate window, status map — is unchanged, with
no backoff waits requested. -/
theorem C1_sent_key_short_circuits
    (ps : List Provider) (l : List (EmailPayload × String × Nat))
    (p : EmailPayload) (k : String) (now : Nat) (r : TrackedEmail)
    (hr : (EmailService.run (EmailService.make ps) l).getEmailStatus k = some r)
    (hsent : r.status = .sent) :
    (EmailService.run (EmailService.make ps) l).sendEmail p k now =
      (EmailService.run (EmailService.make ps) l, [], .ok r) := by
  have hI : (EmailService.run (EmailService.make ps) l).Inv :=
    EmailService.Inv_run _ _ (EmailService.Inv_make ps)
  have hmem : k ∈ (EmailService.run (EmailService.make ps) l).sentEmailIds :=
    (hI k).mpr ⟨r, hr, hsent⟩
  have hc : (EmailService.run (EmailService.make ps) l).sentEmailIds.contains k = true := by
    simpa using hmem
  rw [EmailService.sendEmail_shortCircuit _ p k now hc]
  rw [show (EmailService.run (EmailService.make ps) l).emailStatus.lookup k = some r from hr]
  rfl

/-- Witness for C1: a key sent once through an always-succeeding provider
short-circuits on the repeated call, returning the stored record and
leaving the state untouched. -/
theorem C1_witness :
    (EmailService.run (EmailService.make [alwaysSucceeds "P"]) [(pay0, "k", 0)]).getEmailStatus
        "k" = some ⟨0, .sent, 1, some "P", 0, "k"⟩ ∧
    (⟨0, .sent, 1, some "P", 0, "k"⟩ : TrackedEmail).status = .sent ∧
    (EmailService.run (EmailService.make [alwaysSucceeds "P"]) [(pay0, "k", 0)]).sendEmail
        pay0 "k" 1 =
      (EmailService.run (EmailService.make [alwaysSucceeds "P"]) [(pay0, "k", 0)], [],
       .ok ⟨0, .sent, 1, some "P", 0, "k"⟩) :=
  ⟨rfl, rfl,
   C1_sent_key_short_circuits [alwaysSucceeds "P"] [(pay0, "k", 0)] pay0 "k" 1
     ⟨0, .sent, 1, some "P", 0, "k"⟩ rfl rfl⟩

/-! ## Claim C2 -/

/-- C2 counterexample: a key does not map to at most one DispatchRecord
for the life of the process.  After a failed dispatch, key "k" maps to
the record with id 0; a second `sendEmail` with the same key replaces it
with a brand-new record with id 1, so the record identity for the key
changed. -/
theorem C2_record_identity_counterexample :
    (((EmailService.make [alwaysThrows "P"]).sendEmail pay0 "k" 0).1).getEmailStatus "k" =
      some ⟨0, .failed, 3, none, 0, "k"⟩ ∧
    ((((EmailService.make [alwaysThrows "P"]).sendEmail pay0 "k" 0).1.sendEmail
        pay0 "k" 0).1).getEmailStatus "k" =
      some ⟨1, .failed, 3, none, 0, "k"⟩ :=
  ⟨rfl, rfl⟩

/-- C2 (amended): once a key's DispatchRecord has status `sent`, the key
maps to that exact record — same id and same provider name — for the
rest of the process, across any further sequence of `sendEmail` calls.
(Before reaching `sent`, a key whose dispatch failed can be re-dispatched
and then maps to a new record with a new id.) -/
theorem C2_sent_record_stable
    (ps : List Provider) (l : List (EmailPayload × String × Nat)) (k : String)
    (r : TrackedEmail)
    (hr : (EmailService.run (EmailService.make ps) l).getEmailStatus k = some r)
    (hsent : r.status = .sent)
    (l2 : List (EmailPayload × String × Nat)) :
    (EmailService.run (EmailService.run (EmailService.make ps) l) l2).getEmailStatus k =
      some r :=
  EmailService.sent_stable _ (EmailService.Inv_run _ _ (EmailService.Inv_make ps)) k r
    hr hsent l2

/-- Witness for C2: key "k" sent through an always-succeeding provider
still maps to the identical record after two further calls (one of them
a same-key repeat, one a different key). -/
theorem C2_witness :
    (EmailService.run (EmailService.make [alwaysSucceeds "P"]) [(pay0, "k", 0)]).getEmailStatus
        "k" = some ⟨0, .sent, 1, some "P", 0, "k"⟩ ∧
    (⟨0, .sent, 1, some "P", 0, "k"⟩ : TrackedEmail).status = .sent ∧
    (EmailService.run
        (EmailService.run (EmailService.make [alwaysSucceeds "P"]) [(pay0, "k", 0)])
        [(pay0, "k", 1), (pay0, "k2", 2)]).getEmailStatus "k" =
      some ⟨0, .sent, 1, some "P", 0, "k"⟩ :=
  ⟨rfl, rfl,
   C2_sent_record_stable [alwaysSucceeds "P"] [(pay0, "k", 0)] "k"
     ⟨0, .sent, 1, some "P", 0, "k"⟩ rfl rfl [(pay0, "k", 1), (pay0, "k2", 2)]⟩

/-! ## Claim C3 -/

/-- C3: the CircuitBreaker state machine.
(1) Three consecutive failed underlying calls on a fresh breaker leave it
OPEN with failureCount 3 and the last failure time stamped (so exactly
the `thrownOutCB` state, with 3 underlying invocations).
(2) While OPEN and `now − lastFailureTime ≤ resetTimeout` (30 s), every
send fails immediately with the circuit-open error and the breaker —
including its underlying-invocation counter — is untouched.
(3) Once the timeout has strictly elapsed, the next send is admitted as
the HALF_OPEN probe (probe flag raised), and (4) a second send arriving
while that probe is in flight fails with the probe-in-progress error
without invoking the provider.
(5) A successful (resolving) probe returns the breaker to CLOSED with
failureCount 0 and the probe flag cleared. -/
theorem C3_circuit_breaker_state_machine :
    (∀ (n : String) (p1 p2 p3 : EmailPayload) (t1 t2 t3 : Nat),
      ((((freshCB (alwaysThrows n)).send p1 t1).1.send p2 t2).1.send p3 t3).1 =
        thrownOutCB n t3) ∧
    (∀ (cb : CircuitBreaker) (p : EmailPayload) (now : Nat),
      cb.state = .OPEN → now - cb.lastFailureTime ≤ CircuitBreaker.resetTimeout →
      cb.send p now = (cb, .error .circuitOpen)) ∧
    (∀ (cb : CircuitBreaker) (now : Nat),
      cb.state = .OPEN → CircuitBreaker.resetTimeout < now - cb.lastFailureTime →
      cb.gate now = .ok { cb with state := .HALF_OPEN, halfOpenRequestPending := true } ∧
      ∀ now2 : Nat,
        ({ cb with state := .HALF_OPEN, halfOpenRequestPending := true } :
          CircuitBreaker).gate now2 = .error .probeInProgress) ∧
    (∀ (cb : CircuitBreaker) (p : EmailPayload) (now : Nat) (r : SendResult),
      cb.state = .OPEN → CircuitBreaker.resetTimeout < now - cb.lastFailureTime →
      cb.provider.behavior p cb.calls = .resolves r →
      (cb.send p now).2 = .ok r ∧ (cb.send p now).1.state = .CLOSED ∧
      (cb.send p now).1.failureCount = 0 ∧
      (cb.send p now).1.halfOpenRequestPending = false) := by
  refine ⟨fun n p1 p2 p3 t1 t2 t3 => rfl, ?_, ?_, ?_⟩
  · intro cb p now h ht
    exact CircuitBreaker.send_gate_error _ _ _ _
      (CircuitBreaker.gate_open_rejects _ _ h ht)
  · intro cb now h ht
    refine ⟨CircuitBreaker.gate_open_probe _ _ h ht, fun now2 => ?_⟩
    exact CircuitBreaker.gate_halfopen_pending _ _ rfl rfl
  · intro cb p now r h ht hb
    have hs := CircuitBreaker.send_resolves cb
      { cb with state := .HALF_OPEN, halfOpenRequestPending := true } p now r
      (CircuitBreaker.gate_open_probe _ _ h ht) hb
    rw [hs]
    exact ⟨rfl, rfl, rfl, rfl⟩

/-- Witness for C3: each clause of the state machine exercised on a
concrete breaker (opened at time 0 after three failures; probed at
40001 ms). -/
theorem C3_witness :
    ((((freshCB (alwaysThrows "P")).send pay0 1).1.send pay0 2).1.send pay0 3).1 =
      thrownOutCB "P" 3 ∧
    (thrownOutCB "P" 0).send pay0 10000 = (thrownOutCB "P" 0, .error .circuitOpen) ∧
    (thrownOutCB "P" 0).gate 40001 =
      .ok { thrownOutCB "P" 0 with state := .HALF_OPEN, halfOpenRequestPending := true } ∧
    ({ thrownOutCB "P" 0 with state := .HALF_OPEN, halfOpenRequestPending := true } :
      CircuitBreaker).gate 40002 = .error .probeInProgress ∧
    ((⟨alwaysSucceeds "Q", .OPEN, 3, 0, false, 3⟩ : CircuitBreaker).send pay0 40001).2 =
      .ok ⟨true, "Q"⟩ ∧
    ((⟨alwaysSucceeds "Q", .OPEN, 3, 0, false, 3⟩ : CircuitBreaker).send pay0 40001).1.state =
      .CLOSED ∧
    ((⟨alwaysSucceeds "Q", .OPEN, 3, 0, false, 3⟩ : CircuitBreaker).send
        pay0 40001).1.failureCount = 0 :=
  ⟨C3_circuit_breaker_state_machine.1 "P" pay0 pay0 pay0 1 2 3,
   C3_circuit_breaker_state_machine.2.1 (thrownOutCB "P" 0) pay0 10000 rfl (by decide),
   (C3_circuit_breaker_state_machine.2.2.1 (thrownOutCB "P" 0) 40001 rfl (by decide)).1,
   (C3_circuit_breaker_state_machine.2.2.1 (thrownOutCB "P" 0) 40001 rfl (by decide)).2 40002,
   (C3_circuit_breaker_state_machine.2.2.2 ⟨alwaysSucceeds "Q", .OPEN, 3, 0, false, 3⟩
      pay0 40001 ⟨true, "Q"⟩ rfl (by decide) rfl).1,
   (C3_circuit_breaker_state_machine.2.2.2 ⟨alwaysSucceeds "Q", .OPEN, 3, 0, false, 3⟩
      pay0 40001 ⟨true, "Q"⟩ rfl (by decide) rfl).2.1,
   (C3_circuit_breaker_state_machine.2.2.2 ⟨alwaysSucceeds "Q", .OPEN, 3, 0, false, 3⟩
      pay0 40001 ⟨true, "Q"⟩ rfl (by decide) rfl).2.2.1⟩

/-! ## Claim C4 -/

/-- C4: when the rate limiter rejects (the retained in-window timestamp
count is ≥ maxRequests) a call whose key is not short-circuited, the
call fails with the RateLimitExceeded error; no DispatchRecord is
created (status map unchanged), no provider is invoked (provider list,
including every underlying invocation counter, unchanged), and nothing
is appended to the rate window — it holds exactly the pruned
timestamps. -/
theorem C4_rate_limit_rejection (s : EmailService) (p : EmailPayload) (k : String)
    (now : Nat) (hc : s.sentEmailIds.contains k = false)
    (h5 : EmailService.RATE_LIMIT_COUNT ≤
      (s.requestTimestamps.filter fun t =>
        decide (now - t < EmailService.RATE_LIMIT_WINDOW_MS)).length) :
    s.sendEmail p k now =
      ({ s with requestTimestamps := s.requestTimestamps.filter fun t =>
          decide (now - t < EmailService.RATE_LIMIT_WINDOW_MS) },
       [], .error .rateLimitExceeded) ∧
    (s.sendEmail p k now).1.emailStatus = s.emailStatus ∧
    (s.sendEmail p k now).1.providers = s.providers ∧
    (s.sendEmail p k now).1.sentEmailIds = s.sentEmailIds := by
  have h := EmailService.sendEmail_rateLimited s p k now hc h5
  rw [h]
  exact ⟨rfl, rfl, rfl, rfl⟩

/-- Witness for C4: a service whose window already holds five in-window
timestamps rejects the next call and leaves all state but the pruned
window untouched. -/
theorem C4_witness :
    ({ providers := [freshCB (alwaysSucceeds "P")], requestTimestamps := [0, 1, 2, 3, 4] } :
      EmailService).sendEmail pay0 "k" 5 =
      ({ providers := [freshCB (alwaysSucceeds "P")], requestTimestamps := [0, 1, 2, 3, 4] },
       [], .error .rateLimitExceeded) ∧
    (({ providers := [freshCB (alwaysSucceeds "P")], requestTimestamps := [0, 1, 2, 3, 4] } :
      EmailService).sendEmail pay0 "k" 5).1.emailStatus = [] := by
  have h := (C4_rate_limit_rejection
    { providers := [freshCB (alwaysSucceeds "P")], requestTimestamps := [0, 1, 2, 3, 4] }
    pay0 "k" 5 rfl (by decide))
  exact ⟨h.1, h.2.1⟩

/-! ## Claim C5 -/

/-- C5: `sendEmail` fails only with the RateLimitExceeded error — an
error outcome is possible only when the key is not short-circuited and
the retained window count is at the limit; every other outcome returns a
DispatchRecord.  And with every provider failing on every try (a list of
always-throwing providers on a fresh service), the returned record is
terminal `failed` with no provider name, every provider's underlying
send was invoked exactly maxRetries+1 = 3 times (each breaker ends OPEN
with failureCount 3), and the attempts counter is 3 per provider. -/
theorem C5_error_taxonomy_and_all_fail :
    (∀ (s : EmailService) (p : EmailPayload) (k : String) (now : Nat)
       (s' : EmailService) (w : List Nat) (e : SendEmailError),
      s.sendEmail p k now = (s', w, .error e) →
      e = .rateLimitExceeded ∧ s.sentEmailIds.contains k = false ∧
        EmailService.RATE_LIMIT_COUNT ≤
          (s.requestTimestamps.filter fun t =>
            decide (now - t < EmailService.RATE_LIMIT_WINDOW_MS)).length) ∧
    (∀ (names : List String) (p : EmailPayload) (k : String) (now : Nat),
      (EmailService.make (names.map alwaysThrows)).sendEmail p k now =
        ({ providers := names.map (fun n => thrownOutCB n now)
           sentEmailIds := []
           emailStatus := [(k, ⟨0, .failed, 3 * names.length, none, now, k⟩)]
           requestTimestamps := [now]
           nextId := 1 },
         repWaits names.length, .ok ⟨0, .failed, 3 * names.length, none, now, k⟩)) := by
  constructor
  · intro s p k now s' w e heq
    by_cases hc : s.sentEmailIds.contains k
    · rw [EmailService.sendEmail_shortCircuit s p k now hc] at heq
      have h3 := congrArg (fun x => x.2.2) heq
      simp at h3
    · have hc' : s.sentEmailIds.contains k = false := by simpa using hc
      by_cases h5 : EmailService.RATE_LIMIT_COUNT ≤
          (s.requestTimestamps.filter fun t =>
            decide (now - t < EmailService.RATE_LIMIT_WINDOW_MS)).length
      · cases e
        exact ⟨rfl, hc', h5⟩
      · have hlt := Nat.not_le.mp h5
        rcases hres : EmailService.providersLoop p s.providers
            ⟨s.nextId, .pending, 0, none, now, k⟩ now with ⟨ps1, email, waits, res⟩
        cases res with
        | some r =>
          rw [EmailService.sendEmail_success s p k now ps1 email waits r hc' hlt hres] at heq
          have h3 := congrArg (fun x => x.2.2) heq
          simp at h3
        | none =>
          rw [EmailService.sendEmail_failure s p k now ps1 email waits hc' hlt hres] at heq
          have h3 := congrArg (fun x => x.2.2) heq
          simp at h3
  · intro names p k now
    have hmap : (EmailService.make (names.map alwaysThrows)).providers =
        names.map (fun n => freshCB (alwaysThrows n)) := by
      simp [EmailService.make, List.map_map, Function.comp]
    have hres : EmailService.providersLoop p
        (EmailService.make (names.map alwaysThrows)).providers
        ⟨0, .pending, 0, none, now, k⟩ now =
        (names.map (fun n => thrownOutCB n now),
         { (⟨0, .pending, 0, none, now, k⟩ : TrackedEmail) with
            attempts := 0 + 3 * names.length, lastAttempt := now },
         repWaits names.length, none) := by
      rw [hmap]
      exact EmailService.providersLoop_allThrows p names _ now rfl
    rw [EmailService.sendEmail_failure (EmailService.make (names.map alwaysThrows))
      p k now _ _ _ rfl
      (by simp [EmailService.make, EmailService.RATE_LIMIT_COUNT]) hres]
    simp [EmailService.make, mapSet]

/-- Witness for C5: the error clause exercised on a concrete rate-limited
call (five in-window timestamps). -/
theorem C5_witness :
    (SendEmailError.rateLimitExceeded = .rateLimitExceeded) ∧
    (({ providers := [freshCB (alwaysSucceeds "P")], requestTimestamps := [0, 1, 2, 3, 4] } :
        EmailService).sentEmailIds.contains "k" = false) ∧
    EmailService.RATE_LIMIT_COUNT ≤
      ((({ providers := [freshCB (alwaysSucceeds "P")], requestTimestamps := [0, 1, 2, 3, 4] } :
        EmailService).requestTimestamps.filter fun t =>
          decide (5 - t < EmailService.RATE_LIMIT_WINDOW_MS)).length) :=
  C5_error_taxonomy_and_all_fail.1
    { providers := [freshCB (alwaysSucceeds "P")], requestTimestamps := [0, 1, 2, 3, 4] }
    pay0 "k" 5
    { providers := [freshCB (alwaysSucceeds "P")], requestTimestamps := [0, 1, 2, 3, 4] }
    [] .rateLimitExceeded rfl

/-! ## Claim C6 -/

theorem EmailService.providersLoop_failThenSucceed (p : EmailPayload) (n1 n2 : String)
    (ps : List CircuitBreaker) (e : TrackedEmail) (now : Nat) :
    EmailService.providersLoop p
        (freshCB (alwaysThrows n1) :: freshCB (alwaysSucceeds n2) :: ps) e now =
      (thrownOutCB n1 now :: { freshCB (alwaysSucceeds n2) with calls := 1 } :: ps,
       { e with attempts := e.attempts + 4, lastAttempt := now },
       [2 ^ 0 * 200, 2 ^ 1 * 200], some ⟨true, n2⟩) := by
  simp only [EmailService.providersLoop, EmailService.tryLoop_throws_fresh,
    EmailService.tryLoop_succeeds_fresh]
  rfl

/-- C6: with a primary provider that always fails (throws) and a
secondary that always succeeds (and arbitrary further providers behind
them), `sendEmail` on a fresh key returns a `sent` record carrying the
secondary's name; the primary's underlying send was invoked exactly
maxRetries+1 = 3 times (its breaker ends OPEN after its exhausted
budget), the secondary exactly once, and the remaining providers are
untouched — no further providers or tries after the first success.  The
total attempts counter is 4 and the two backoff delays 200·2⁰ and 200·2¹
were requested only within the primary's tries. -/
theorem C6_fallback_order_and_counts (n1 n2 : String) (rest : List Provider)
    (p : EmailPayload) (k : String) (now : Nat) :
    (EmailService.make (alwaysThrows n1 :: alwaysSucceeds n2 :: rest)).sendEmail p k now =
      ({ providers := thrownOutCB n1 now ::
            { freshCB (alwaysSucceeds n2) with calls := 1 } :: rest.map freshCB
         sentEmailIds := [k]
         emailStatus := [(k, ⟨0, .sent, 4, some n2, now, k⟩)]
         requestTimestamps := [now]
         nextId := 1 },
       [2 ^ 0 * 200, 2 ^ 1 * 200], .ok ⟨0, .sent, 4, some n2, now, k⟩) := by
  have hres : EmailService.providersLoop p
      (EmailService.make (alwaysThrows n1 :: alwaysSucceeds n2 :: rest)).providers
      ⟨0, .pending, 0, none, now, k⟩ now =
      (thrownOutCB n1 now :: { freshCB (alwaysSucceeds n2) with calls := 1 } :: rest.map freshCB,
       { (⟨0, .pending, 0, none, now, k⟩ : TrackedEmail) with
          attempts := 0 + 4, lastAttempt := now },
       [2 ^ 0 * 200, 2 ^ 1 * 200], some ⟨true, n2⟩) := by
    exact EmailService.providersLoop_failThenSucceed p n1 n2 (rest.map freshCB) _ now
  rw [EmailService.sendEmail_success (EmailService.make (alwaysThrows n1 :: alwaysSucceeds n2 :: rest))
    p k now _ _ _ _ rfl
    (by simp [EmailService.make, EmailService.RATE_LIMIT_COUNT]) hres]
  simp [EmailService.make, mapSet]

/-! ## Claim C7 -/

theorem EmailService.providersLoop_twoThrows (p : EmailPayload) (n1 n2 : String)
    (e : TrackedEmail) (now : Nat) :
    EmailService.providersLoop p
        [freshCB (alwaysThrows n1), freshCB (alwaysThrows n2)] e now =
      ([thrownOutCB n1 now, thrownOutCB n2 now],
       { e with attempts := e.attempts + 6, lastAttempt := now },
       [2 ^ 0 * 200, 2 ^ 1 * 200, 2 ^ 0 * 200, 2 ^ 1 * 200], none) := by
  simp only [EmailService.providersLoop, EmailService.tryLoop_throws_fresh]
  rfl

/-- C7: the backoff schedule.
(1) Against a provider whose every try throws, the retry loop requests
exactly the delays 200·2⁰ then 200·2¹ — i.e. 200·2ⁱ after the failed try
with 0-based index i — and no delay after the last try.
(2) With two exhausted providers in sequence the requested delays are
exactly 200·2⁰, 200·2¹, 200·2⁰, 200·2¹: moving to the next provider adds
no extra delay and the next provider's schedule restarts at try index 0.
(3) A try rejected because the provider's circuit is OPEN (timeout
unexpired) consumes a try from the retry budget exactly like any other
failure — three such tries exhaust the provider — and triggers the very
same 200·2ⁱ backoff delays; (4) likewise for tries rejected because a
HALF_OPEN probe is already in flight. -/
theorem C7_backoff_schedule :
    (∀ (p : EmailPayload) (n : String) (e : TrackedEmail) (now : Nat),
      EmailService.tryLoop p (freshCB (alwaysThrows n)) e now 0
          (EmailService.MAX_RETRIES + 1) =
        (thrownOutCB n now, { e with attempts := e.attempts + 3, lastAttempt := now },
         [2 ^ 0 * 200, 2 ^ 1 * 200], none)) ∧
    (∀ (p : EmailPayload) (n1 n2 : String) (e : TrackedEmail) (now : Nat),
      EmailService.providersLoop p
          [freshCB (alwaysThrows n1), freshCB (alwaysThrows n2)] e now =
        ([thrownOutCB n1 now, thrownOutCB n2 now],
         { e with attempts := e.attempts + 6, lastAttempt := now },
         [2 ^ 0 * 200, 2 ^ 1 * 200, 2 ^ 0 * 200, 2 ^ 1 * 200], none)) ∧
    (∀ (p : EmailPayload) (cb : CircuitBreaker) (e : TrackedEmail) (now : Nat),
      cb.state = .OPEN → now - cb.lastFailureTime ≤ CircuitBreaker.resetTimeout →
      EmailService.tryLoop p cb e now 0 (EmailService.MAX_RETRIES + 1) =
        (cb, { e with attempts := e.attempts + 3, lastAttempt := now },
         [2 ^ 0 * 200, 2 ^ 1 * 200], none)) ∧
    (∀ (p : EmailPayload) (cb : CircuitBreaker) (e : TrackedEmail) (now : Nat),
      cb.state = .HALF_OPEN → cb.halfOpenRequestPending = true →
      EmailService.tryLoop p cb e now 0 (EmailService.MAX_RETRIES + 1) =
        (cb, { e with attempts := e.attempts + 3, lastAttempt := now },
         [2 ^ 0 * 200, 2 ^ 1 * 200], none)) :=
  ⟨EmailService.tryLoop_throws_fresh, EmailService.providersLoop_twoThrows,
   EmailService.tryLoop_open, EmailService.tryLoop_probePending⟩

/-- Witness for C7: the circuit-open and probe-pending clauses exercised
on concrete breakers. -/
theorem C7_witness :
    EmailService.tryLoop pay0 (thrownOutCB "P" 0)
        ⟨0, .pending, 0, none, 7, "k"⟩ 7 0 (EmailService.MAX_RETRIES + 1) =
      (thrownOutCB "P" 0, ⟨0, .pending, 3, none, 7, "k"⟩,
       [2 ^ 0 * 200, 2 ^ 1 * 200], none) ∧
    EmailService.tryLoop pay0
        { thrownOutCB "P" 0 with state := .HALF_OPEN, halfOpenRequestPending := true }
        ⟨0, .pending, 0, none, 7, "k"⟩ 7 0 (EmailService.MAX_RETRIES + 1) =
      ({ thrownOutCB "P" 0 with state := .HALF_OPEN, halfOpenRequestPending := true },
       ⟨0, .pending, 3, none, 7, "k"⟩, [2 ^ 0 * 200, 2 ^ 1 * 200], none) :=
  ⟨C7_backoff_schedule.2.2.1 pay0 (thrownOutCB "P" 0)
     ⟨0, .pending, 0, none, 7, "k"⟩ 7 rfl (by decide),
   C7_backoff_schedule.2.2.2 pay0
     { thrownOutCB "P" 0 with state := .HALF_OPEN, halfOpenRequestPending := true }
     ⟨0, .pending, 0, none, 7, "k"⟩ 7 rfl rfl⟩

/-! ## Claim C8 -/

/-- C8: sliding-window rate limiting with maxRequests = 5 and
windowDuration = 10000 ms.
(1) If the window already holds 5 timestamps all strictly within the
window of `now` (so pruning retains all of them), the next `sendEmail`
on a fresh key fails with RateLimitExceeded.
(2) Once the window has elapsed past every stored timestamp
(`now − t ≥ 10000` for each), pruning discards them all and a subsequent
call on a fresh key is admitted: it returns a DispatchRecord instead of
failing. -/
theorem C8_sliding_window :
    (∀ (s : EmailService) (p : EmailPayload) (k : String) (now : Nat),
      s.sentEmailIds.contains k = false →
      s.requestTimestamps.length = EmailService.RATE_LIMIT_COUNT →
      (∀ t ∈ s.requestTimestamps, now - t < EmailService.RATE_LIMIT_WINDOW_MS) →
      (s.sendEmail p k now).2.2 = .error .rateLimitExceeded) ∧
    (∀ (s : EmailService) (p : EmailPayload) (k : String) (now : Nat),
      s.sentEmailIds.contains k = false →
      (∀ t ∈ s.requestTimestamps, EmailService.RATE_LIMIT_WINDOW_MS ≤ now - t) →
      ∃ r : TrackedEmail, (s.sendEmail p k now).2.2 = .ok r) := by
  constructor
  · intro s p k now hc hlen hin
    have hfilter : (s.requestTimestamps.filter fun t =>
        decide (now - t < EmailService.RATE_LIMIT_WINDOW_MS)) = s.requestTimestamps := by
      rw [List.filter_eq_self]
      intro t ht
      simpa using hin t ht
    have h5 : EmailService.RATE_LIMIT_COUNT ≤
        (s.requestTimestamps.filter fun t =>
          decide (now - t < EmailService.RATE_LIMIT_WINDOW_MS)).length := by
      rw [hfilter, hlen]
    rw [EmailService.sendEmail_rateLimited s p k now hc h5]
  · intro s p k now hc hout
    have hfilter : (s.requestTimestamps.filter fun t =>
        decide (now - t < EmailService.RATE_LIMIT_WINDOW_MS)) = [] := by
      rw [List.filter_eq_nil_iff]
      intro t ht
      simpa using Nat.not_lt.mpr (hout t ht)
    have hlt : (s.requestTimestamps.filter fun t =>
        decide (now - t < EmailService.RATE_LIMIT_WINDOW_MS)).length <
        EmailService.RATE_LIMIT_COUNT := by
      rw [hfilter]
      decide
    rcases hres : EmailService.providersLoop p s.providers
        ⟨s.nextId, .pending, 0, none, now, k⟩ now with ⟨ps1, email, waits, res⟩
    cases res with
    | some r =>
      rw [EmailService.sendEmail_success s p k now ps1 email waits r hc hlt hres]
      exact ⟨_, rfl⟩
    | none =>
      rw [EmailService.sendEmail_failure s p k now ps1 email waits hc hlt hres]
      exact ⟨_, rfl⟩

/-- Witness for C8: with five timestamps 0..4 the sixth call at time 5 is
rejected; at time 20000 (every timestamp ≥ 10000 ms old) a call is
admitted again and yields a record. -/
theorem C8_witness :
    (({ providers := [freshCB (alwaysSucceeds "P")], requestTimestamps := [0, 1, 2, 3, 4] } :
        EmailService).sendEmail pay0 "k" 5).2.2 = .error .rateLimitExceeded ∧
    ∃ r : TrackedEmail,
      (({ providers := [freshCB (alwaysSucceeds "P")], requestTimestamps := [0, 1, 2, 3, 4] } :
          EmailService).sendEmail pay0 "k" 20000).2.2 = .ok r :=
  ⟨C8_sliding_window.1
     { providers := [freshCB (alwaysSucceeds "P")], requestTimestamps := [0, 1, 2, 3, 4] }
     pay0 "k" 5 rfl rfl (by decide),
   C8_sliding_window.2
     { providers := [freshCB (alwaysSucceeds "P")], requestTimestamps := [0, 1, 2, 3, 4] }
     pay0 "k" 20000 rfl (by decide)⟩

/-! ## Claim C9 -/

/-- C9: the check-then-create step is *not* atomic — the claim's required
behaviour is violated by the code.  The idempotency check consults
`sentEmailIds`, which is populated only after a successful dispatch
completes, and the first suspension point of a dispatch is the provider
`send`.  So when a second `sendEmail` with the same fresh key runs while
the first is suspended at its provider call (the interleaving modelled
here: caller A executes its synchronous head, caller B then runs to
completion, then A resumes), both callers pass the existence check:
the provider is invoked twice (total underlying calls = 2, not 1) and
the two callers receive records with different ids (1 and 0), not
identical records. -/
theorem C9_idempotency_race_code_bug :
    ((EmailService.make [alwaysSucceeds "P"]).sendEmailPhase1 "k" 0).2 =
      .proceed ⟨0, .pending, 0, none, 0, "k"⟩ ∧
    (((EmailService.make [alwaysSucceeds "P"]).sendEmailPhase1 "k" 0).1.sendEmail
        pay0 "k" 0).2.2 = .ok ⟨1, .sent, 1, some "P", 0, "k"⟩ ∧
    ((((EmailService.make [alwaysSucceeds "P"]).sendEmailPhase1 "k" 0).1.sendEmail
        pay0 "k" 0).1.sendEmailResume pay0 "k" ⟨0, .pending, 0, none, 0, "k"⟩ 0).2.2 =
      ⟨0, .sent, 1, some "P", 0, "k"⟩ ∧
    ((((EmailService.make [alwaysSucceeds "P"]).sendEmailPhase1 "k" 0).1.sendEmail
        pay0 "k" 0).1.sendEmailResume pay0 "k"
        ⟨0, .pending, 0, none, 0, "k"⟩ 0).1.providers.map CircuitBreaker.calls = [2] :=
  ⟨rfl, rfl, rfl, rfl⟩

/-! ## Claim C10 -/

/-- C10: a provider `send` that resolves with `{success: false}` (instead
of throwing).
(1) At the breaker: whenever the gate admits the call and the underlying
invocation resolves with `{success: false, providerName}`, the breaker
treats it as a success — it resets to CLOSED with failureCount 0 and the
probe flag cleared (while counting the underlying invocation), and the
resolved result is returned, not an error.  Such non-throwing failures
can therefore never open the circuit.
(2) At the engine: against a fresh provider that always resolves
`{success: false}`, the retry loop consumes all three tries (attempts +3,
three underlying invocations) but — since no error is thrown — requests
no backoff delay at all, and the breaker ends CLOSED with
failureCount 0. -/
theorem C10_resolved_unsuccessful_sends :
    (∀ (cb cb1 : CircuitBreaker) (p : EmailPayload) (now : Nat) (n : String),
      cb.gate now = .ok cb1 →
      cb1.provider.behavior p cb1.calls = .resolves ⟨false, n⟩ →
      cb.send p now = ({ cb1.reset with calls := cb1.calls + 1 }, .ok ⟨false, n⟩) ∧
      (cb.send p now).1.state = .CLOSED ∧
      (cb.send p now).1.failureCount = 0 ∧
      (cb.send p now).1.halfOpenRequestPending = false) ∧
    (∀ (p : EmailPayload) (n : String) (e : TrackedEmail) (now : Nat),
      EmailService.tryLoop p (freshCB (alwaysUnsuccessful n)) e now 0
          (EmailService.MAX_RETRIES + 1) =
        ({ freshCB (alwaysUnsuccessful n) with calls := 3 },
         { e with attempts := e.attempts + 3, lastAttempt := now },
         [], none)) := by
  constructor
  · intro cb cb1 p now n hadm hb
    have hs := CircuitBreaker.send_resolves cb cb1 p now ⟨false, n⟩ hadm hb
    rw [hs]
    exact ⟨rfl, rfl, rfl, rfl⟩
  · exact EmailService.tryLoop_noSuccess_fresh

/-- Witness for C10: a fresh breaker around an always-`{success: false}`
provider is admitted, returns the resolved result, and stays CLOSED. -/
theorem C10_witness :
    (freshCB (alwaysUnsuccessful "P")).send pay0 0 =
      ({ (freshCB (alwaysUnsuccessful "P")).reset with calls := 0 + 1 },
       .ok ⟨false, "P"⟩) ∧
    ((freshCB (alwaysUnsuccessful "P")).send pay0 0).1.state = .CLOSED ∧
    ((freshCB (alwaysUnsuccessful "P")).send pay0 0).1.failureCount = 0 :=
  ⟨(C10_resolved_unsuccessful_sends.1 (freshCB (alwaysUnsuccessful "P"))
      (freshCB (alwaysUnsuccessful "P")) pay0 0 "P" rfl rfl).1,
   (C10_resolved_unsuccessful_sends.1 (freshCB (alwaysUnsuccessful "P"))
      (freshCB (alwaysUnsuccessful "P")) pay0 0 "P" rfl rfl).2.1,
   (C10_resolved_unsuccessful_sends.1 (freshCB (alwaysUnsuccessful "P"))
      (freshCB (alwaysUnsuccessful "P")) pay0 0 "P" rfl rfl).2.2.1⟩
